import Mathlib

/-!
Verification of the scamp repository's session / playcorder layer.

Shallow embedding of `src/scamp/session.py` and `src/source/playcorderNew.py`.
Components that live outside the provided sources (`clockblocks.Clock`
primitives, `Ensemble._to_json`, `Transcriber.start_transcribing`,
`Clock.fork`) are modelled from the spec, each marked as such in its
doc comment.
-/

/-! ## Clock suspension primitives (spec-modelled) -/

/-- Modelled from the spec: the clockblocks `Clock` state that the session's
listener wrappers manipulate.  `suspensionDepth` is the clock's suspension
count (the spec's "suspension flag/count"); `clockSet` records whether the
calling thread's thread-local marker (`current_thread().__clock__` in the
source) currently points at the session. -/
structure WState where
  suspensionDepth : Nat
  clockSet : Bool
deriving DecidableEq, Repr

/-- Modelled from the spec: `rouse_and_hold()` temporarily wakes a suspended
clock tree and holds it awake, incrementing the suspension-pair depth;
pairs may be nested reentrantly. -/
def rouse_and_hold (s : WState) : WState :=
  { s with suspensionDepth := s.suspensionDepth + 1 }

/-- Modelled from the spec: `release_from_suspension()` hands control back to
suspended waiters, undoing one `rouse_and_hold`. -/
def release_from_suspension (s : WState) : WState :=
  { s with suspensionDepth := s.suspensionDepth - 1 }

/-- Statement `threading.current_thread().__clock__ = self` in the wrappers. -/
def setThreadClock (s : WState) : WState :=
  { s with clockSet := true }

/-- Statement `threading.current_thread().__clock__ = None` in the wrappers. -/
def clearThreadClock (s : WState) : WState :=
  { s with clockSet := false }

/-! ## Listener callback wrappers (src/scamp/session.py)

Each wrapper is translated line by line.  The user callback is abstracted to
a flag saying whether it raises; a raised exception propagates out of the
wrapper, so the statements after the call site do not run.  Each wrapper
returns the final clock state, the trace of wrapper events that actually
executed, and whether an exception escaped. -/

/-- Events performed by a wrapper, in execution order. -/
inductive Ev where
  | rouse
  | setClock
  | userCb
  | clearClock
  | release
deriving DecidableEq, Repr

/-- Wrapper `register_osc_listener.callback_wrapper` (session.py lines 121-126):
rouse_and_hold; set `__clock__`; call the user callback; clear `__clock__`;
release_from_suspension.  No try/finally in the source, so a raising
callback aborts after the call. -/
def callback_wrapper (cbRaises : Bool) (s : WState) : WState × List Ev × Bool :=
  let s1 := rouse_and_hold s
  let s2 := setThreadClock s1
  if cbRaises then
    (s2, [Ev.rouse, Ev.setClock, Ev.userCb], true)
  else
    let s3 := clearThreadClock s2
    let s4 := release_from_suspension s3
    (s4, [Ev.rouse, Ev.setClock, Ev.userCb, Ev.clearClock, Ev.release], false)

/-- Wrapper `register_keyboard_listener.on_press_wrapper` (session.py lines 165-173):
the user `on_press` runs only when the key is not already in `keys_down`;
either way the bracket statements around it run (absent an exception). -/
def on_press_wrapper (cbRaises : Bool) (keyName : String) (keysDown : List String)
    (s : WState) : WState × List String × List Ev × Bool :=
  let s1 := rouse_and_hold s
  let s2 := setThreadClock s1
  if keyName ∈ keysDown then
    let s3 := clearThreadClock s2
    let s4 := release_from_suspension s3
    (s4, keysDown, [Ev.rouse, Ev.setClock, Ev.clearClock, Ev.release], false)
  else
    let kd := keysDown ++ [keyName]
    if cbRaises then
      (s2, kd, [Ev.rouse, Ev.setClock, Ev.userCb], true)
    else
      let s3 := clearThreadClock s2
      let s4 := release_from_suspension s3
      (s4, kd, [Ev.rouse, Ev.setClock, Ev.userCb, Ev.clearClock, Ev.release], false)

/-- Wrapper `register_keyboard_listener.on_release_wrapper` (session.py lines 178-186,
the branch where `on_release` is supplied): the key is removed from
`keys_down` when present, and `on_release` is called unconditionally. -/
def on_release_wrapper (cbRaises : Bool) (keyName : String) (keysDown : List String)
    (s : WState) : WState × List String × List Ev × Bool :=
  let s1 := rouse_and_hold s
  let s2 := setThreadClock s1
  let kd := keysDown.erase keyName
  if cbRaises then
    (s2, kd, [Ev.rouse, Ev.setClock, Ev.userCb], true)
  else
    let s3 := clearThreadClock s2
    let s4 := release_from_suspension s3
    (s4, kd, [Ev.rouse, Ev.setClock, Ev.userCb, Ev.clearClock, Ev.release], false)

/-- Wrapper `register_mouse_listener.on_move_wrapper` (session.py lines 257-262). -/
def on_move_wrapper (cbRaises : Bool) (s : WState) : WState × List Ev × Bool :=
  let s1 := rouse_and_hold s
  let s2 := setThreadClock s1
  if cbRaises then
    (s2, [Ev.rouse, Ev.setClock, Ev.userCb], true)
  else
    let s3 := clearThreadClock s2
    let s4 := release_from_suspension s3
    (s4, [Ev.rouse, Ev.setClock, Ev.userCb, Ev.clearClock, Ev.release], false)

/-- Wrapper `register_mouse_listener.on_scroll_wrapper` (session.py lines 267-272). -/
def on_scroll_wrapper (cbRaises : Bool) (s : WState) : WState × List Ev × Bool :=
  let s1 := rouse_and_hold s
  let s2 := setThreadClock s1
  if cbRaises then
    (s2, [Ev.rouse, Ev.setClock, Ev.userCb], true)
  else
    let s3 := clearThreadClock s2
    let s4 := release_from_suspension s3
    (s4, [Ev.rouse, Ev.setClock, Ev.userCb, Ev.clearClock, Ev.release], false)

/-- Wrapper `register_mouse_listener.on_click_wrapper` (session.py lines 280-288):
`pressed` selects `on_press` or `on_release`; both run inside the same
bracket. -/
def on_click_wrapper (pressRaises releaseRaises : Bool) (pressed : Bool)
    (s : WState) : WState × List Ev × Bool :=
  let s1 := rouse_and_hold s
  let s2 := setThreadClock s1
  let raises := if pressed then pressRaises else releaseRaises
  if raises then
    (s2, [Ev.rouse, Ev.setClock, Ev.userCb], true)
  else
    let s3 := clearThreadClock s2
    let s4 := release_from_suspension s3
    (s4, [Ev.rouse, Ev.setClock, Ev.userCb, Ev.clearClock, Ev.release], false)

/-! ## Playcorder (src/source/playcorderNew.py) -/

/-- Modelled from the spec: a node of the clock tree, identified by its name
and its rate multiplier.  Only identity and rate are needed by the claims
about `Playcorder.fork`. -/
structure ClockNode where
  name : String
  rate : ℚ
deriving DecidableEq, Repr

/-- Result of a clock fork: the freshly created child clock, and the clock
value passed as argument to the scheduled action. -/
structure ForkResult where
  parent : ClockNode
  child : ClockNode
  actionArg : ClockNode
deriving DecidableEq, Repr

/-- Modelled from the spec: `Clock.fork` (the clock module is not under the
provided sources) creates a child clock, schedules the action to run
concurrently with the child clock passed as its argument, and returns the
child clock immediately. -/
def ClockNode.fork (c : ClockNode) (nm : String) (initialRate : ℚ) : ForkResult :=
  let child : ClockNode := { name := nm, rate := initialRate }
  { parent := c, child := child, actionArg := child }

/-- One instrument of the ensemble: its identity and its current
`_performance_part` reference (the id of the `Performance` it is recording
into, `none` when not recording). -/
structure InstrumentSt where
  id : Nat
  performancePart : Option Nat
deriving DecidableEq, Repr

/-- One part of a `Performance`, holding a reference to its instrument. -/
structure PerformancePart where
  instrument : Nat
deriving DecidableEq, Repr

/-- Modelled from the source's use of `Performance()` / `new_part`: a fresh
object identity plus the list of parts created on it. -/
structure Performance where
  pid : Nat
  parts : List PerformancePart
deriving DecidableEq, Repr

/-- Value of the `clock` argument to `start_recording`: the string
`"absolute"` (default), the string `"master"` (resolved to the master
clock), or some other clock abstracted by its current beat reading. -/
inductive RecordingClock where
  | absolute
  | master
  | other (beats : ℚ)
deriving DecidableEq, Repr

/-- State of a `Playcorder` (the fields of `Playcorder.__init__` that the
claims touch): the master clock together with its current time and beat
readings, the ensemble's instruments, and the recording fields
`_recording_clock`, `_recording_start_time` and `performance`.
`nextPerfId` supplies the object identity of the next `Performance()`. -/
structure Playcorder where
  masterClock : ClockNode
  masterTime : ℚ
  masterBeats : ℚ
  instruments : List InstrumentSt
  recordingClock : Option RecordingClock
  recordingStartTime : Option ℚ
  performance : Option Performance
  nextPerfId : Nat
deriving DecidableEq, Repr

/-- State of `Playcorder.__init__`: fresh master clock named MASTER, no
recording clock, no recording start time, no performance. -/
def Playcorder.init : Playcorder :=
  { masterClock := { name := "MASTER", rate := 1 }
    masterTime := 0
    masterBeats := 0
    instruments := []
    recordingClock := none
    recordingStartTime := none
    performance := none
    nextPerfId := 0 }

/-- Method `Playcorder.time` (line 66-67): reads the master clock's time. -/
def Playcorder.time (pc : Playcorder) : ℚ := pc.masterTime

/-- Method `Playcorder.fork` (playcorderNew.py lines 72-81), translated from
the source: a function of more than one parameter gets a warning but is
still forked; a function of zero parameters gets a warning and the method
returns `None` without forking; otherwise the master clock's fork result is
returned. -/
def Playcorder.fork (pc : Playcorder) (numParams : Nat) (nm : String)
    (initialRate : ℚ) : Option ForkResult :=
  if numParams > 1 then
    some (pc.masterClock.fork nm initialRate)
  else if numParams = 0 then
    none
  else
    some (pc.masterClock.fork nm initialRate)

/-- Fuel-bounded while loop: runs `body` while `cond` holds, returning
`some finalState` if the loop exits within `fuel` iterations and `none`
if the fuel is exhausted with the loop still running. -/
def whileLoop {A : Type} (cond : A → Bool) (body : A → A) : Nat → A → Option A
  | 0, _ => none
  | n + 1, s => if cond s then whileLoop cond body n (body s) else some s

/-- Modelled from the spec: `Clock.wait(beats)` suspends the caller until the
requested beats have elapsed and then returns normally; the embedding
tracks only the running total of beats waited. -/
def clockWait (beats : ℚ) (total : ℚ) : ℚ := total + beats

/-- Method `Playcorder.wait_forever` (playcorderNew.py lines 87-89):
`while True: self.wait(1.0)`, run with the given fuel. -/
def wait_forever (fuel : Nat) (total : ℚ) : Option ℚ :=
  whileLoop (fun _ => true) (clockWait 1) fuel total

/-- Loop body of `Session.run_as_server.run_server` (session.py lines 49-50):
`while True: current_clock().wait_forever()`.  Each outer iteration runs
`wait_forever` with `innerFuel` steps; the outer loop has `outerFuel`
iterations. -/
def run_server_loop (innerFuel : Nat) : Nat → ℚ → Option ℚ
  | 0, _ => none
  | n + 1, total =>
    match wait_forever innerFuel total with
    | none => none
    | some t => run_server_loop innerFuel n t

/-- Method `Playcorder.start_recording` (playcorderNew.py lines 154-165):
resolves `"master"` to the master clock, records the recording clock and
start time, defaults `which_parts` to the ensemble's instruments, creates a
fresh `Performance`, gives it one new part per recorded instrument, and
points each recorded instrument's `_performance_part` at it. -/
def Playcorder.start_recording (pc : Playcorder) (whichParts : Option (List Nat))
    (clock : RecordingClock) : Playcorder :=
  let startTime : ℚ :=
    match clock with
    | RecordingClock.absolute => pc.time
    | RecordingClock.master => pc.masterBeats
    | RecordingClock.other b => b
  let parts : List Nat := whichParts.getD (pc.instruments.map fun i => i.id)
  let perf : Performance :=
    { pid := pc.nextPerfId
      parts := parts.map fun instId => { instrument := instId } }
  { pc with
      recordingClock := some clock
      recordingStartTime := some startTime
      performance := some perf
      nextPerfId := pc.nextPerfId + 1
      instruments := pc.instruments.map fun inst =>
        if inst.id ∈ parts then { inst with performancePart := some perf.pid }
        else inst }

/-- Method `Playcorder.is_recording` (lines 167-168):
`self._recording_start_time is not None`. -/
def Playcorder.is_recording (pc : Playcorder) : Bool :=
  pc.recordingStartTime.isSome

/-- Method `Playcorder.stop_recording` (lines 176-182): for each part of the
current performance, ends the part's instrument's notes (an external
instrument operation, not tracked) and clears its `_performance_part`
reference, then clears `_recording_start_time` and returns the performance.
When `self.performance` is `None` the attribute access in the loop fails,
modelled as `none`. -/
def Playcorder.stop_recording (pc : Playcorder) : Option (Playcorder × Performance) :=
  match pc.performance with
  | none => none
  | some perf =>
    let recordedIds := perf.parts.map fun p => p.instrument
    some
      ({ pc with
          instruments := pc.instruments.map fun inst =>
            if inst.id ∈ recordedIds then { inst with performancePart := none }
            else inst
          recordingStartTime := none }, perf)

/-! ## Session serialization (src/scamp/session.py lines 330-333) -/

/-- JSON values, as deep as the session serialization needs. -/
inductive JVal where
  | str (s : String)
  | num (q : ℚ)
  | arr (l : List String)
  | nullv
deriving DecidableEq, Repr

/-- Ensemble configuration fields of a session (the keyword arguments of
`Session.__init__` other than `tempo`, plus the instruments and the default
spelling policy handled by `Session._from_json`). -/
structure EnsembleCfg where
  default_soundfont : String
  default_audio_driver : String
  default_midi_output_device : String
  instrumentsJson : List String
  default_spelling_policy : Option String
deriving DecidableEq, Repr

/-- Modelled from the spec: `Ensemble._to_json` (the instruments module is not
under the provided sources) serializes exactly the ensemble configuration:
the default soundfont, audio driver and midi output device, the serialized
instruments, and the default spelling policy — the keys that
`Session._from_json` consumes. -/
def EnsembleCfg.toJson (e : EnsembleCfg) : List (String × JVal) :=
  [ ("default_soundfont", JVal.str e.default_soundfont)
  , ("default_audio_driver", JVal.str e.default_audio_driver)
  , ("default_midi_output_device", JVal.str e.default_midi_output_device)
  , ("instruments", JVal.arr e.instrumentsJson)
  , ("default_spelling_policy",
      match e.default_spelling_policy with
      | none => JVal.nullv
      | some p => JVal.str p) ]

/-- Full session state relevant to serialization: the ensemble configuration
and tempo that are serialized, alongside the clock-tree children, the
listener registrations and the transcription state that are not. -/
structure SessionFull where
  ensemble : EnsembleCfg
  tempo : ℚ
  childClockNames : List String
  midiListenerPorts : List Nat
  oscListenerPorts : List Nat
  transcriptionsInProgress : Nat
deriving DecidableEq, Repr

/-- Method `Session._to_json` (session.py lines 330-333):
`json_object = Ensemble._to_json(self); json_object["tempo"] = self.tempo`.
Since the ensemble keys do not contain `"tempo"`, the dict assignment
appends the new key. -/
def SessionFull.toJson (s : SessionFull) : List (String × JVal) :=
  s.ensemble.toJson ++ [("tempo", JVal.num s.tempo)]

/-! ## Session listener registry (src/scamp/session.py lines 73-205) -/

/-- Python exception kinds raised by the registration methods. -/
inductive PyErr where
  | importError
  | valueError
deriving DecidableEq, Repr

/-- State of `self._listeners` plus the session's clock state.  Listener
objects returned by the external `start_midi_listener` /
`pythonosc` / `pynput` constructors are abstracted by fresh numeric ids
drawn from `nextListenerId`; `closedMidi` records the ids on which
`close_port()` has been called. -/
structure ListenersState where
  midi : List (Nat × Nat)
  osc : List ((String × Nat) × Nat)
  keyboard : Option Nat
  mouse : Option Nat
  closedMidi : List Nat
  nextListenerId : Nat
  clock : WState
deriving DecidableEq, Repr

/-- Listener state of `Session.__init__` (line 38):
`self._listeners = {"midi": {}, "osc": {}}`. -/
def ListenersState.init : ListenersState :=
  { midi := [], osc := [], keyboard := none, mouse := none,
    closedMidi := [], nextListenerId := 0,
    clock := { suspensionDepth := 0, clockSet := false } }

/-- Method `Session.remove_midi_listener` (session.py lines 94-106).
`portResolution` is the already-resolved port: `none` when fuzzy device-name
matching (external `get_port_number_of_midi_device`) found no device, in
which case `None` is not a key of the registry and the `not in` check
raises.  On success the existing listener's `close_port()` is called and
its entry deleted. -/
def remove_midi_listener (portResolution : Option Nat) (s : ListenersState) :
    ListenersState × Option PyErr :=
  match portResolution with
  | none => (s, some PyErr.valueError)
  | some port =>
    match s.midi.lookup port with
    | none => (s, some PyErr.valueError)
    | some lid =>
      ({ s with
          midi := s.midi.filter fun e => e.1 ≠ port
          closedMidi := lid :: s.closedMidi }, none)

/-- Method `Session.register_midi_listener` (session.py lines 73-92):
an unresolved device name raises `ValueError`; a port not among the
available input ports (parameter `availablePorts`, from the external
`get_available_midi_input_devices`) raises `ValueError`; a port that
already has a listener first has it removed via `remove_midi_listener`;
finally the freshly started listener is stored under the port. -/
def register_midi_listener (availablePorts : List Nat) (portResolution : Option Nat)
    (s : ListenersState) : ListenersState × Option PyErr :=
  match portResolution with
  | none => (s, some PyErr.valueError)
  | some port =>
    if port ∈ availablePorts then
      let s1 := if (s.midi.lookup port).isSome
                then (remove_midi_listener (some port) s).1
                else s
      ({ s1 with
          midi := s1.midi ++ [(port, s1.nextListenerId)]
          nextListenerId := s1.nextListenerId + 1 }, none)
    else (s, some PyErr.valueError)

/-- Method `Session.register_osc_listener` (session.py lines 108-136): with
the python-osc package missing (`pythonosc is None`) it raises
`ImportError` before anything else; otherwise a server is started for a new
(ip, port) pair and the wrapper is mapped on its dispatcher. -/
def register_osc_listener (pythonoscAvailable : Bool) (ip : String) (port : Nat)
    (s : ListenersState) : ListenersState × Option PyErr :=
  if pythonoscAvailable then
    let s1 :=
      if (s.osc.lookup (ip, port)).isSome then s
      else { s with
              osc := s.osc ++ [((ip, port), s.nextListenerId)]
              nextListenerId := s.nextListenerId + 1 }
    (s1, none)
  else (s, some PyErr.importError)

/-- Method `Session.register_keyboard_listener` (session.py lines 149-197):
with pynput missing it raises `ImportError` before anything else; otherwise
any running keyboard listener is removed and a new one installed. -/
def register_keyboard_listener (pynputAvailable : Bool) (s : ListenersState) :
    ListenersState × Option PyErr :=
  if pynputAvailable then
    let s1 := { s with keyboard := none }
    ({ s1 with
        keyboard := some s1.nextListenerId
        nextListenerId := s1.nextListenerId + 1 }, none)
  else (s, some PyErr.importError)

/-- One call against the MIDI listener registry, carrying the results of the
external port resolution. -/
inductive MidiOp where
  | register (availablePorts : List Nat) (portResolution : Option Nat)
  | remove (portResolution : Option Nat)
deriving DecidableEq, Repr

/-- Runs one registry call, keeping the state and discarding the outcome
(a raised error leaves the state as returned). -/
def runMidiOp (s : ListenersState) : MidiOp → ListenersState
  | MidiOp.register av pr => (register_midi_listener av pr s).1
  | MidiOp.remove pr => (remove_midi_listener pr s).1

/-- Runs a sequence of registry calls. -/
def runMidiOps (s : ListenersState) : List MidiOp → ListenersState
  | [] => s
  | op :: rest => runMidiOps (runMidiOp s op) rest

/-! ## Session transcription (src/scamp/session.py lines 307-328) -/

/-- Clock argument accepted by `start_transcribing`: `none` means the default
(the session itself). -/
inductive ClockArg where
  | session
  | other (id : Nat)
deriving DecidableEq, Repr

/-- Arguments of a delegated `Transcriber.start_transcribing` call. -/
structure TranscriberCall where
  instruments : List Nat
  clock : ClockArg
  units : String
deriving DecidableEq, Repr

/-- Modelled from the spec: `Transcriber.start_transcribing` (the transcriber
module is not under the provided sources) begins transcribing the given
instruments on the given clock; the embedding records the call's
arguments. -/
def transcriber_start_transcribing (instruments : List Nat) (clock : ClockArg)
    (units : String) : TranscriberCall :=
  { instruments := instruments, clock := clock, units := units }

/-- Method `Session.start_transcribing` (session.py lines 307-328): raises
`ValueError` when no instruments were given and the session's ensemble is
empty; otherwise delegates to the Transcriber with the instruments
defaulting to all session instruments and the clock defaulting to the
session itself. -/
def session_start_transcribing (sessionInstruments : List Nat)
    (instrumentArg : Option (List Nat)) (clockArg : Option ClockArg)
    (units : String) : Except PyErr TranscriberCall :=
  if instrumentArg = none ∧ sessionInstruments.length = 0 then
    Except.error PyErr.valueError
  else
    Except.ok (transcriber_start_transcribing
      (instrumentArg.getD sessionInstruments)
      (clockArg.getD ClockArg.session) units)

/-! ## Sample states for concrete evaluation -/

/-- Session listener state with one midi listener (id 10) registered on
port 3. -/
def sampleListeners : ListenersState :=
  { midi := [(3, 10)], osc := [], keyboard := none, mouse := none,
    closedMidi := [], nextListenerId := 11,
    clock := { suspensionDepth := 0, clockSet := false } }

/-- Playcorder with two ensemble instruments, ids 1 and 2. -/
def samplePlaycorder : Playcorder :=
  { Playcorder.init with
      instruments := [{ id := 1, performancePart := none },
                      { id := 2, performancePart := some 99 }]
      nextPerfId := 5 }

/-! ## Theorems -/

/-- C1: the claim states that release_from_suspension is always called when
rouse_and_hold was, even if the wrapped user callback raises.  The wrappers
in session.py have no try/finally, so a raising callback aborts the wrapper
after the call site: the suspension hold is never released and the
thread-local clock marker stays set.  This theorem evaluates the OSC,
keyboard-press and mouse-move wrappers at a raising callback from a
resting clock state and shows the leaked state. -/
theorem scamp_C1_failing_callback_leaves_clock_suspended :
    callback_wrapper true { suspensionDepth := 0, clockSet := false } =
      ({ suspensionDepth := 1, clockSet := true },
       [Ev.rouse, Ev.setClock, Ev.userCb], true) ∧
    Ev.release ∉ (callback_wrapper true { suspensionDepth := 0, clockSet := false }).2.1 ∧
    Ev.clearClock ∉ (callback_wrapper true { suspensionDepth := 0, clockSet := false }).2.1 ∧
    (on_press_wrapper true "a" [] { suspensionDepth := 0, clockSet := false }).1 =
      { suspensionDepth := 1, clockSet := true } ∧
    (on_move_wrapper true { suspensionDepth := 0, clockSet := false }).1 =
      { suspensionDepth := 1, clockSet := true } := by
  decide

/-- C2: every listener callback registered by the Session runs inside the
fixed bracket rouse_and_hold; set thread-local clock; user callback; clear
thread-local clock; release_from_suspension, in that order (on the normal,
non-raising path), and the bracket restores the suspension depth and leaves
the thread-local cleared.  For the keyboard press wrapper the user callback
is skipped when the key is already down, but the bracket still runs in
order around the skipped call. -/
theorem scamp_C2_callbacks_run_in_fixed_bracket (s : WState) (k : String)
    (kd : List String) (pressed : Bool) :
    (callback_wrapper false s).2.1 =
      [Ev.rouse, Ev.setClock, Ev.userCb, Ev.clearClock, Ev.release] ∧
    (callback_wrapper false s).1 =
      { suspensionDepth := s.suspensionDepth, clockSet := false } ∧
    (on_press_wrapper false k kd s).2.2.1 =
      (if k ∈ kd then [Ev.rouse, Ev.setClock, Ev.clearClock, Ev.release]
       else [Ev.rouse, Ev.setClock, Ev.userCb, Ev.clearClock, Ev.release]) ∧
    (on_press_wrapper false k kd s).1 =
      { suspensionDepth := s.suspensionDepth, clockSet := false } ∧
    (on_release_wrapper false k kd s).2.2.1 =
      [Ev.rouse, Ev.setClock, Ev.userCb, Ev.clearClock, Ev.release] ∧
    (on_release_wrapper false k kd s).1 =
      { suspensionDepth := s.suspensionDepth, clockSet := false } ∧
    (on_move_wrapper false s).2.1 =
      [Ev.rouse, Ev.setClock, Ev.userCb, Ev.clearClock, Ev.release] ∧
    (on_move_wrapper false s).1 =
      { suspensionDepth := s.suspensionDepth, clockSet := false } ∧
    (on_scroll_wrapper false s).2.1 =
      [Ev.rouse, Ev.setClock, Ev.userCb, Ev.clearClock, Ev.release] ∧
    (on_scroll_wrapper false s).1 =
      { suspensionDepth := s.suspensionDepth, clockSet := false } ∧
    (on_click_wrapper false false pressed s).2.1 =
      [Ev.rouse, Ev.setClock, Ev.userCb, Ev.clearClock, Ev.release] ∧
    (on_click_wrapper false false pressed s).1 =
      { suspensionDepth := s.suspensionDepth, clockSet := false } := by
  refine ⟨rfl, rfl, ?_, ?_, rfl, rfl, rfl, rfl, rfl, rfl, ?_, ?_⟩ <;>
    simp [on_press_wrapper, on_click_wrapper, rouse_and_hold,
      release_from_suspension, setThreadClock, clearThreadClock] <;>
    split <;> rfl

/-- C3 counterexample: `Playcorder.fork` does not return a child clock for
every action — for an action function taking zero parameters it logs a
warning and returns `None` without forking anything (playcorderNew.py
lines 77-80). -/
theorem scamp_C3_zero_param_action_gets_none :
    Playcorder.init.fork 0 "child" 1 = none := by
  rfl

/-- C3 amended: for every action function taking at least one parameter,
`Playcorder.fork` forks the master clock and returns the resulting child
clock (a non-None value) immediately, with the scheduled action receiving
that same child clock as its argument; a zero-parameter action instead gets
`None` and nothing is forked. -/
theorem scamp_C3_fork_returns_child_for_nonzero_param_action (pc : Playcorder)
    (n : Nat) (nm : String) (r : ℚ) :
    pc.fork (n + 1) nm r = some (pc.masterClock.fork nm r) ∧
    (pc.masterClock.fork nm r).actionArg = (pc.masterClock.fork nm r).child ∧
    (pc.masterClock.fork nm r).child = { name := nm, rate := r } := by
  refine ⟨?_, rfl, rfl⟩
  simp only [Playcorder.fork]
  split_ifs with h1 h2 <;> first | rfl | exact h2.elim

/-- Iterating `rouse_and_hold` n times adds n to the suspension depth. -/
lemma rouse_and_hold_iterate (n : Nat) (s : WState) :
    rouse_and_hold^[n] s = { s with suspensionDepth := s.suspensionDepth + n } := by
  induction n generalizing s with
  | zero => simp
  | succ m ih =>
    rw [Function.iterate_succ_apply, ih]
    simp [rouse_and_hold]
    omega

/-- Iterating `release_from_suspension` n times on a clock held at least n
deep subtracts n from the suspension depth. -/
lemma release_from_suspension_iterate (n : Nat) (s : WState)
    (h : n ≤ s.suspensionDepth) :
    release_from_suspension^[n] s = { s with suspensionDepth := s.suspensionDepth - n } := by
  induction n generalizing s with
  | zero => simp
  | succ m ih =>
    rw [Function.iterate_succ_apply, ih]
    · simp [release_from_suspension]
      omega
    · simp [release_from_suspension]
      omega

/-- C4: a `rouse_and_hold` followed by a `release_from_suspension` leaves the
suspension depth exactly as it was, from every starting state, and this
holds for arbitrarily deep reentrant nesting of the pairs (n + 1 nested
pairs for every n). -/
theorem scamp_C4_rouse_release_pairs_restore_depth (s : WState) (n : Nat) :
    release_from_suspension^[n + 1] (rouse_and_hold^[n + 1] s) = s := by
  rw [rouse_and_hold_iterate, release_from_suspension_iterate]
  · simp
  · simp

/-- The while-true loop never exits within any amount of fuel. -/
lemma whileLoop_true_eq_none {A : Type} (body : A → A) (fuel : Nat) (s : A) :
    whileLoop (fun _ => true) body fuel s = none := by
  induction fuel generalizing s with
  | zero => rfl
  | succ m ih => simp [whileLoop, ih]

/-- C5: `wait_forever` never returns to its caller — the Playcorder
implementation loops forever over unit waits and within any finite number
of loop steps has not returned, and the Session server thread's
`while True: current_clock().wait_forever()` loop likewise never returns,
for any fuel bounds. -/
theorem scamp_C5_wait_forever_never_returns :
    (∀ (fuel : Nat) (total : ℚ), wait_forever fuel total = none) ∧
    (∀ (innerFuel outerFuel : Nat) (total : ℚ),
       run_server_loop innerFuel outerFuel total = none) := by
  have hw : ∀ (fuel : Nat) (total : ℚ), wait_forever fuel total = none :=
    fun fuel total => whileLoop_true_eq_none (clockWait 1) fuel total
  refine ⟨hw, ?_⟩
  intro innerFuel outerFuel
  induction outerFuel with
  | zero => intro total; rfl
  | succ m ih => intro total; simp [run_server_loop, hw]

/-- C6: session serialization is exactly the ensemble configuration plus one
top-level "tempo" key: `Session._to_json` equals `Ensemble._to_json` of the
same session with "tempo" added, its key list is exactly the ensemble
configuration keys followed by "tempo", and the output is a function of the
ensemble configuration and tempo alone — clock-tree children, listener
registrations and transcription state do not appear. -/
theorem scamp_C6_to_json_is_ensemble_plus_tempo (s t : SessionFull)
    (he : s.ensemble = t.ensemble) (ht : s.tempo = t.tempo) :
    s.toJson = s.ensemble.toJson ++ [("tempo", JVal.num s.tempo)] ∧
    s.toJson.map Prod.fst =
      ["default_soundfont", "default_audio_driver", "default_midi_output_device",
       "instruments", "default_spelling_policy", "tempo"] ∧
    s.toJson = t.toJson := by
  refine ⟨rfl, ?_, ?_⟩
  · simp [SessionFull.toJson, EnsembleCfg.toJson]
  · simp [SessionFull.toJson, he, ht]

/-- C6 witness: two sessions sharing ensemble configuration and tempo but
differing in clock children, listeners and transcription state serialize
identically, to the ensemble keys plus "tempo". -/
theorem scamp_C6_witness :
    SessionFull.toJson
      { ensemble := { default_soundfont := "default", default_audio_driver := "default",
                      default_midi_output_device := "default", instrumentsJson := [],
                      default_spelling_policy := none }
        tempo := 60, childClockNames := ["child1"], midiListenerPorts := [3],
        oscListenerPorts := [5000], transcriptionsInProgress := 1 } =
    SessionFull.toJson
      { ensemble := { default_soundfont := "default", default_audio_driver := "default",
                      default_midi_output_device := "default", instrumentsJson := [],
                      default_spelling_policy := none }
        tempo := 60, childClockNames := [], midiListenerPorts := [],
        oscListenerPorts := [], transcriptionsInProgress := 0 } :=
  (scamp_C6_to_json_is_ensemble_plus_tempo
    { ensemble := { default_soundfont := "default", default_audio_driver := "default",
                    default_midi_output_device := "default", instrumentsJson := [],
                    default_spelling_policy := none }
      tempo := 60, childClockNames := ["child1"], midiListenerPorts := [3],
      oscListenerPorts := [5000], transcriptionsInProgress := 1 }
    { ensemble := { default_soundfont := "default", default_audio_driver := "default",
                    default_midi_output_device := "default", instrumentsJson := [],
                    default_spelling_policy := none }
      tempo := 60, childClockNames := [], midiListenerPorts := [],
      oscListenerPorts := [], transcriptionsInProgress := 0 }
    rfl rfl).2.2

/-- C7: listener-registration failures are atomic: with python-osc missing,
`register_osc_listener` raises ImportError returning the session state
untouched; with pynput missing, `register_keyboard_listener` raises
ImportError likewise; `register_midi_listener` raises ValueError on an
unmatched device name and on a port not among the available input ports —
in every case before any listener-registry entry is added or removed and
with the clock state unchanged. -/
theorem scamp_C7_registration_failures_are_atomic :
    (∀ (ip : String) (port : Nat) (s : ListenersState),
       register_osc_listener false ip port s = (s, some PyErr.importError)) ∧
    (∀ (s : ListenersState),
       register_keyboard_listener false s = (s, some PyErr.importError)) ∧
    (∀ (av : List Nat) (s : ListenersState),
       register_midi_listener av none s = (s, some PyErr.valueError)) ∧
    (∀ (av : List Nat) (p : Nat) (s : ListenersState), p ∉ av →
       register_midi_listener av (some p) s = (s, some PyErr.valueError)) := by
  refine ⟨fun ip port s => rfl, fun s => rfl, fun av s => rfl, fun av p s hp => ?_⟩
  simp [register_midi_listener, hp]

/-- C7 witness: each failure mode evaluated on the sample session state with
one registered midi listener, including port 7 which is not among the
available ports [0, 1]. -/
theorem scamp_C7_witness :
    register_osc_listener false "127.0.0.1" 5000 sampleListeners =
      (sampleListeners, some PyErr.importError) ∧
    register_keyboard_listener false sampleListeners =
      (sampleListeners, some PyErr.importError) ∧
    register_midi_listener [0, 1] none sampleListeners =
      (sampleListeners, some PyErr.valueError) ∧
    register_midi_listener [0, 1] (some 7) sampleListeners =
      (sampleListeners, some PyErr.valueError) :=
  ⟨scamp_C7_registration_failures_are_atomic.1 "127.0.0.1" 5000 sampleListeners,
   scamp_C7_registration_failures_are_atomic.2.1 sampleListeners,
   scamp_C7_registration_failures_are_atomic.2.2.1 [0, 1] sampleListeners,
   scamp_C7_registration_failures_are_atomic.2.2.2 [0, 1] 7 sampleListeners (by decide)⟩

/-- C8: `start_transcribing` with no instruments given and an empty ensemble
raises ValueError; otherwise it delegates to the Transcriber with the
instruments defaulting to all session instruments and the clock defaulting
to the session itself. -/
theorem scamp_C8_start_transcribing_defaults :
    (∀ (ca : Option ClockArg) (u : String),
       session_start_transcribing [] none ca u = Except.error PyErr.valueError) ∧
    (∀ (si insts : List Nat) (ca : Option ClockArg) (u : String),
       session_start_transcribing si (some insts) ca u =
         Except.ok { instruments := insts, clock := ca.getD ClockArg.session,
                     units := u }) ∧
    (∀ (i0 : Nat) (si : List Nat) (ca : Option ClockArg) (u : String),
       session_start_transcribing (i0 :: si) none ca u =
         Except.ok { instruments := i0 :: si, clock := ca.getD ClockArg.session,
                     units := u }) := by
  refine ⟨fun ca u => rfl, fun si insts ca u => ?_, fun i0 si ca u => ?_⟩ <;>
    simp [session_start_transcribing, transcriber_start_transcribing]

/-- Filtering out the entries at one key commutes with taking the key list. -/
lemma midi_keys_filter (l : List (Nat × Nat)) (p : Nat) :
    ((l.filter fun e => e.1 ≠ p).map Prod.fst) =
      ((l.map Prod.fst).filter fun k => k ≠ p) := by
  induction l with
  | nil => rfl
  | cons a t ih =>
    simp only [ne_eq, decide_not] at ih
    by_cases h : a.1 = p <;>
      simp [List.filter_cons, h, ih]

/-- A key with no lookup result is not in the key list. -/
lemma midi_lookup_none_not_mem (l : List (Nat × Nat)) (p : Nat)
    (h : l.lookup p = none) : p ∉ l.map Prod.fst := by
  induction l with
  | nil => simp
  | cons a t ih =>
    obtain ⟨k, b⟩ := a
    simp only [List.lookup] at h
    by_cases hp : p = k
    · subst hp
      simp at h
    · have hb : (p == k) = false := beq_eq_false_iff_ne.mpr hp
      rw [hb] at h
      simp only [List.map_cons, List.mem_cons]
      push_neg
      exact ⟨hp, ih h⟩

/-- Looking up a key in the registry after all its old entries were filtered
out and a fresh entry appended finds the fresh entry. -/
lemma midi_lookup_filter_append (l : List (Nat × Nat)) (p v : Nat) :
    ((l.filter fun e => e.1 ≠ p) ++ [(p, v)]).lookup p = some v := by
  induction l with
  | nil => simp [List.lookup]
  | cons a t ih =>
    obtain ⟨k, b⟩ := a
    by_cases h : k = p
    · simpa [List.filter_cons, h] using ih
    · have hb : (p == k) = false := beq_eq_false_iff_ne.mpr fun he => h he.symm
      simp only [ne_eq, decide_not] at ih
      simp [List.filter_cons, h, List.lookup, hb, ih]

/-- Appending a fresh key to a duplicate-free key list keeps it
duplicate-free. -/
lemma nodup_keys_append_fresh (ks : List Nat) (p : Nat) (hk : ks.Nodup)
    (hp : p ∉ ks) : (ks ++ [p]).Nodup := by
  rw [List.nodup_append]
  refine ⟨hk, List.nodup_singleton p, ?_⟩
  intro a ha hap
  simp only [List.mem_singleton] at hap
  exact hp (hap ▸ ha)

/-- Removing a midi listener keeps the registry's key list duplicate-free. -/
lemma remove_midi_keeps_nodup (pr : Option Nat) (s : ListenersState)
    (h : (s.midi.map Prod.fst).Nodup) :
    (((remove_midi_listener pr s).1).midi.map Prod.fst).Nodup := by
  cases pr with
  | none => exact h
  | some p =>
    cases hl : s.midi.lookup p with
    | none => simpa [remove_midi_listener, hl] using h
    | some lid =>
      simp only [remove_midi_listener, hl]
      rw [midi_keys_filter]
      exact h.filter _

/-- Registering a midi listener keeps the registry's key list
duplicate-free. -/
lemma register_midi_keeps_nodup (av : List Nat) (pr : Option Nat)
    (s : ListenersState) (h : (s.midi.map Prod.fst).Nodup) :
    (((register_midi_listener av pr s).1).midi.map Prod.fst).Nodup := by
  cases pr with
  | none => exact h
  | some p =>
    by_cases hmem : p ∈ av
    · cases hl : s.midi.lookup p with
      | none =>
        have hfresh := midi_lookup_none_not_mem s.midi p hl
        simp only [register_midi_listener, hmem, if_true, hl]
        simpa using nodup_keys_append_fresh _ p h hfresh
      | some lid =>
        simp only [register_midi_listener, hmem, if_true, hl, remove_midi_listener]
        simp only [Option.isSome_some, if_true, List.map_append, List.map_cons,
          List.map_nil]
        rw [midi_keys_filter]
        refine nodup_keys_append_fresh _ p (h.filter _) ?_
        simp
    · simpa [register_midi_listener, hmem] using h

/-- A sequence of registry calls keeps the key list duplicate-free. -/
lemma runMidiOps_keeps_nodup (ops : List MidiOp) (s : ListenersState)
    (h : (s.midi.map Prod.fst).Nodup) :
    (((runMidiOps s ops).midi.map Prod.fst)).Nodup := by
  induction ops generalizing s with
  | nil => exact h
  | cons op rest ih =>
    cases op with
    | register av pr => exact ih _ (register_midi_keeps_nodup av pr s h)
    | remove pr => exact ih _ (remove_midi_keeps_nodup pr s h)

/-- C9: the MIDI listener registry maps each port to at most one listener
after any sequence of register/remove calls (the key list stays
duplicate-free); registering on an occupied port succeeds, first closing
and removing the existing listener and installing the new one under the
port; removing a port with no registered listener raises ValueError and
leaves the whole session state unchanged (a `None` port resolution
likewise). -/
theorem scamp_C9_midi_registry_one_listener_per_port :
    (∀ (ops : List MidiOp) (s : ListenersState),
       (s.midi.map Prod.fst).Nodup →
       ((runMidiOps s ops).midi.map Prod.fst).Nodup) ∧
    (∀ (av : List Nat) (p lid : Nat) (s : ListenersState),
       p ∈ av → s.midi.lookup p = some lid →
       (register_midi_listener av (some p) s).2 = none ∧
       lid ∈ ((register_midi_listener av (some p) s).1).closedMidi ∧
       ((register_midi_listener av (some p) s).1).midi.lookup p =
         some s.nextListenerId) ∧
    (∀ (p : Nat) (s : ListenersState), s.midi.lookup p = none →
       remove_midi_listener (some p) s = (s, some PyErr.valueError)) ∧
    (∀ (s : ListenersState),
       remove_midi_listener none s = (s, some PyErr.valueError)) := by
  refine ⟨fun ops s h => runMidiOps_keeps_nodup ops s h, ?_, ?_, fun s => rfl⟩
  · intro av p lid s hmem hl
    have hla := midi_lookup_filter_append s.midi p s.nextListenerId
    simp only [ne_eq, decide_not] at hla
    refine ⟨?_, ?_, ?_⟩ <;>
      simp [register_midi_listener, remove_midi_listener, hmem, hl, hla]
  · intro p s hl
    simp [remove_midi_listener, hl]

/-- C9 witness: a register-register-remove sequence on port 3 from the fresh
session keeps the registry duplicate-free; registering again on port 3 of
the sample state closes listener 10, installs listener 11 under port 3 and
raises nothing; removing unregistered port 4 (or an unresolved name) raises
ValueError with the state unchanged. -/
theorem scamp_C9_witness :
    ((runMidiOps ListenersState.init
        [MidiOp.register [3] (some 3), MidiOp.register [3] (some 3),
         MidiOp.remove (some 3)]).midi.map Prod.fst).Nodup ∧
    (register_midi_listener [3] (some 3) sampleListeners).2 = none ∧
    10 ∈ ((register_midi_listener [3] (some 3) sampleListeners).1).closedMidi ∧
    ((register_midi_listener [3] (some 3) sampleListeners).1).midi.lookup 3 =
      some 11 ∧
    remove_midi_listener (some 4) sampleListeners =
      (sampleListeners, some PyErr.valueError) ∧
    remove_midi_listener none sampleListeners =
      (sampleListeners, some PyErr.valueError) := by
  have h := scamp_C9_midi_registry_one_listener_per_port
  have h2 := h.2.1 [3] 3 10 sampleListeners (by decide) (by decide)
  exact ⟨h.1 _ ListenersState.init (by decide), h2.1, h2.2.1, h2.2.2,
    h.2.2.1 4 sampleListeners (by decide), h.2.2.2 sampleListeners⟩

/-- C10: the recording lifecycle is consistent: after `start_recording`
returns, `is_recording()` is True; `stop_recording` on the resulting state
succeeds, and afterwards `is_recording()` is False, every recorded part's
instrument has its `_performance_part` reference cleared, and the returned
value is exactly the `Performance` object that the matching
`start_recording` call created. -/
theorem scamp_C10_recording_lifecycle (pc : Playcorder) (wp : Option (List Nat))
    (ck : RecordingClock) :
    (pc.start_recording wp ck).is_recording = true ∧
    ((pc.start_recording wp ck).stop_recording).isSome = true ∧
    (∀ (pc2 : Playcorder) (perf : Performance),
       (pc.start_recording wp ck).stop_recording = some (pc2, perf) →
       pc2.is_recording = false ∧
       some perf = (pc.start_recording wp ck).performance ∧
       ∀ inst ∈ pc2.instruments,
         inst.id ∈ perf.parts.map (fun pt => pt.instrument) →
         inst.performancePart = none) := by
  refine ⟨rfl, rfl, ?_⟩
  intro pc2 perf heq
  simp only [Playcorder.start_recording, Playcorder.stop_recording,
    Option.some.injEq, Prod.mk.injEq] at heq
  obtain ⟨hpc2, hperf⟩ := heq
  subst hpc2
  subst hperf
  refine ⟨rfl, rfl, ?_⟩
  intro inst hmem hid
  simp only [List.mem_map] at hmem
  obtain ⟨inst1, hinst1, rfl⟩ := hmem
  simp only [List.map_map] at hid
  by_cases hc : inst1.id ∈ wp.getD (pc.instruments.map fun i => i.id)
  · simp [hc]
  · simp [hc] at hid
/-- Playcorder state reached from `samplePlaycorder` by `start_recording`
followed by `stop_recording`. -/
def stoppedPlaycorder : Playcorder :=
  { masterClock := { name := "MASTER", rate := 1 }
    masterTime := 0
    masterBeats := 0
    instruments := [{ id := 1, performancePart := none },
                    { id := 2, performancePart := none }]
    recordingClock := some RecordingClock.absolute
    recordingStartTime := none
    performance := some { pid := 5, parts := [{ instrument := 1 }, { instrument := 2 }] }
    nextPerfId := 6 }

/-- Performance created by `start_recording` on `samplePlaycorder`. -/
def samplePerformance : Performance :=
  { pid := 5, parts := [{ instrument := 1 }, { instrument := 2 }] }

/-- C10 witness: on the sample playcorder with instruments 1 and 2,
start-then-stop flips `is_recording` from true to false, returns the
performance created at start, and clears instrument 2's performance-part
reference. -/
theorem scamp_C10_witness :
    (samplePlaycorder.start_recording none RecordingClock.absolute).is_recording
      = true ∧
    stoppedPlaycorder.is_recording = false ∧
    some samplePerformance =
      (samplePlaycorder.start_recording none RecordingClock.absolute).performance ∧
    InstrumentSt.performancePart { id := 2, performancePart := none } = none := by
  have h := scamp_C10_recording_lifecycle samplePlaycorder none RecordingClock.absolute
  have h3 := h.2.2 stoppedPlaycorder samplePerformance (by rfl)
  exact ⟨h.1, h3.1, h3.2.1,
    h3.2.2 { id := 2, performancePart := none } (by decide) (by decide)⟩
